import Mathlib

/-!
Shallow embedding of the uoSQL server/client core: the binary wire codec
(bincode-style, big-endian / network byte order as pinned by the tests in
src/server/src/net/mod.rs), the protocol read/write functions of
src/server/src/net/mod.rs, the client connection logic of src/src/lib.rs,
and the flat-file storage engine insert path.

The byte stream is modelled as a `List Nat` of byte values; writing to a
stream is appending, reading is consuming a prefix and returning the rest.
Fallible decoding returns `Option`, mirroring bincode deserialization
errors.
-/

namespace uosql

/-- A 16-bit unsigned integer in big-endian (network) byte order, as written
by the serializer observed in test_send_error_packet. -/
def u16be (n : Nat) : List Nat :=
  [n / 2 ^ 8 % 256, n % 256]

/-- A 32-bit unsigned integer in big-endian (network) byte order. -/
def u32be (n : Nat) : List Nat :=
  [n / 2 ^ 24 % 256, n / 2 ^ 16 % 256, n / 2 ^ 8 % 256, n % 256]

/-- A 32-bit unsigned integer in little-endian byte order (used only to state
what the encoder does NOT produce). -/
def u32le (n : Nat) : List Nat :=
  [n % 256, n / 2 ^ 8 % 256, n / 2 ^ 16 % 256, n / 2 ^ 24 % 256]

/-- A 64-bit unsigned integer in big-endian (network) byte order. -/
def u64be (n : Nat) : List Nat :=
  [n / 2 ^ 56 % 256, n / 2 ^ 48 % 256, n / 2 ^ 40 % 256, n / 2 ^ 32 % 256,
   n / 2 ^ 24 % 256, n / 2 ^ 16 % 256, n / 2 ^ 8 % 256, n % 256]

/-- Read a single byte from the stream. -/
def readU8 : List Nat → Option (Nat × List Nat)
  | b :: rest => some (b, rest)
  | [] => none

/-- Read a big-endian 16-bit unsigned integer from the stream. -/
def readU16be : List Nat → Option (Nat × List Nat)
  | b0 :: b1 :: rest => some (b0 * 2 ^ 8 + b1, rest)
  | _ => none

/-- Read a big-endian 32-bit unsigned integer from the stream. -/
def readU32be : List Nat → Option (Nat × List Nat)
  | b0 :: b1 :: b2 :: b3 :: rest =>
      some (b0 * 2 ^ 24 + b1 * 2 ^ 16 + b2 * 2 ^ 8 + b3, rest)
  | _ => none

/-- Read a big-endian 64-bit unsigned integer from the stream. -/
def readU64be : List Nat → Option (Nat × List Nat)
  | b0 :: b1 :: b2 :: b3 :: b4 :: b5 :: b6 :: b7 :: rest =>
      some (b0 * 2 ^ 56 + b1 * 2 ^ 48 + b2 * 2 ^ 40 + b3 * 2 ^ 32 +
            b4 * 2 ^ 24 + b5 * 2 ^ 16 + b6 * 2 ^ 8 + b7, rest)
  | _ => none

/-- The UTF-8 encoding of a single character. -/
def utf8Bytes (c : Char) : List Nat :=
  let n := c.toNat
  if n < 0x80 then [n]
  else if n < 0x800 then
    [0xC0 + n / 2 ^ 6, 0x80 + n % 2 ^ 6]
  else if n < 0x10000 then
    [0xE0 + n / 2 ^ 12, 0x80 + n / 2 ^ 6 % 2 ^ 6, 0x80 + n % 2 ^ 6]
  else
    [0xF0 + n / 2 ^ 18, 0x80 + n / 2 ^ 12 % 2 ^ 6,
     0x80 + n / 2 ^ 6 % 2 ^ 6, 0x80 + n % 2 ^ 6]

/-- The UTF-8 byte sequence of a string. -/
def utf8Encode (s : String) : List Nat :=
  (s.data.map utf8Bytes).flatten

/-- Whether a byte is a UTF-8 continuation byte. -/
def isCont (b : Nat) : Bool :=
  0x80 ≤ b && b < 0xC0

/-- Fueled UTF-8 decoder; rejects malformed, overlong and surrogate
sequences, mirroring the validation performed by the string deserializer. -/
def utf8DecodeAux : Nat → List Nat → Option (List Char)
  | _, [] => some []
  | 0, _ :: _ => none
  | fuel + 1, b0 :: rest =>
    if b0 < 0x80 then
      (utf8DecodeAux fuel rest).map (Char.ofNat b0 :: ·)
    else if 0xC0 ≤ b0 && b0 < 0xE0 then
      match rest with
      | b1 :: rest1 =>
        if isCont b1 then
          let n := (b0 - 0xC0) * 2 ^ 6 + (b1 - 0x80)
          if 0x80 ≤ n then (utf8DecodeAux fuel rest1).map (Char.ofNat n :: ·)
          else none
        else none
      | _ => none
    else if 0xE0 ≤ b0 && b0 < 0xF0 then
      match rest with
      | b1 :: b2 :: rest2 =>
        if isCont b1 && isCont b2 then
          let n := (b0 - 0xE0) * 2 ^ 12 + (b1 - 0x80) * 2 ^ 6 + (b2 - 0x80)
          if 0x800 ≤ n && ¬ (0xD800 ≤ n && n < 0xE000) then
            (utf8DecodeAux fuel rest2).map (Char.ofNat n :: ·)
          else none
        else none
      | _ => none
    else if 0xF0 ≤ b0 && b0 < 0xF5 then
      match rest with
      | b1 :: b2 :: b3 :: rest3 =>
        if isCont b1 && isCont b2 && isCont b3 then
          let n := (b0 - 0xF0) * 2 ^ 18 + (b1 - 0x80) * 2 ^ 12 +
                   (b2 - 0x80) * 2 ^ 6 + (b3 - 0x80)
          if 0x10000 ≤ n && n < 0x110000 then
            (utf8DecodeAux fuel rest3).map (Char.ofNat n :: ·)
          else none
        else none
      | _ => none
    else none

/-- Decode a full byte list as UTF-8 text. -/
def utf8Decode (bs : List Nat) : Option (List Char) :=
  utf8DecodeAux bs.length bs

/-- Wire encoding of text: 8-byte length followed by UTF-8 bytes, per the
test vectors in src/server/src/net/mod.rs. -/
def serializeString (s : String) : List Nat :=
  u64be (utf8Encode s).length ++ utf8Encode s

/-- Read a length-prefixed UTF-8 string from the stream. -/
def decodeString (bs : List Nat) : Option (String × List Nat) :=
  match readU64be bs with
  | none => none
  | some (len, rest) =>
    if rest.length < len then none
    else
      match utf8Decode (rest.take len) with
      | none => none
      | some cs => some (String.mk cs, rest.drop len)

/-- Wire encoding of a boolean: one byte, 0 or 1. -/
def serializeBool (b : Bool) : List Nat :=
  [if b then 1 else 0]

/-- Read a boolean byte from the stream; any value other than 0/1 is a
deserialization error. -/
def decodeBool (bs : List Nat) : Option (Bool × List Nat) :=
  match bs with
  | 0 :: rest => some (false, rest)
  | 1 :: rest => some (true, rest)
  | _ => none

/-- Modelled from the spec: the protocol message discriminant of
src/server/src/net/types.rs, which is absent from src/. Variant order is
chosen so that the declaration indices pinned by the tests in
src/server/src/net/mod.rs hold: Error is index 3 and Ok is index 4
("index 4 if Ok is the 5th variant in declaration order"). -/
inductive PkgType
  | Greet
  | Login
  | Command
  | Error
  | Ok
  | Response
  | AccGranted
  | AccDenied
deriving DecidableEq

/-- Declaration index of a `PkgType` variant. -/
def pkgTypeIndex : PkgType → Nat
  | .Greet => 0
  | .Login => 1
  | .Command => 2
  | .Error => 3
  | .Ok => 4
  | .Response => 5
  | .AccGranted => 6
  | .AccDenied => 7

/-- The explicit index-to-variant table used when decoding a `PkgType`. -/
def pkgTypeOfIndex : Nat → Option PkgType
  | 0 => some .Greet
  | 1 => some .Login
  | 2 => some .Command
  | 3 => some .Error
  | 4 => some .Ok
  | 5 => some .Response
  | 6 => some .AccGranted
  | 7 => some .AccDenied
  | _ => none

/-- Wire encoding of a `PkgType`: its variant index as a 4-byte unsigned
integer. -/
def serializePkgType (p : PkgType) : List Nat :=
  u32be (pkgTypeIndex p)

/-- Read a `PkgType` tag from the stream; an out-of-range index is a
deserialization error. -/
def decodePkgType (bs : List Nat) : Option (PkgType × List Nat) :=
  match readU32be bs with
  | none => none
  | some (n, rest) =>
    match pkgTypeOfIndex n with
    | none => none
    | some p => some (p, rest)

/-- Modelled from the spec: the command message of
src/server/src/net/types.rs, absent from src/: `Ping | Quit | Query(text)`. -/
inductive Command
  | Ping
  | Quit
  | Query (text : String)
deriving DecidableEq

/-- Declaration index of a `Command` variant. -/
def commandIndex : Command → Nat
  | .Ping => 0
  | .Quit => 1
  | .Query _ => 2

/-- The field bytes following a `Command` variant tag. -/
def commandFields : Command → List Nat
  | .Ping => []
  | .Quit => []
  | .Query text => serializeString text

/-- Wire encoding of a `Command`: 4-byte variant index followed by the
variant's fields in declaration order. -/
def serializeCommand (c : Command) : List Nat :=
  u32be (commandIndex c) ++ commandFields c

/-- Read a `Command` from the stream. -/
def decodeCommand (bs : List Nat) : Option (Command × List Nat) :=
  match readU32be bs with
  | none => none
  | some (0, rest) => some (.Ping, rest)
  | some (1, rest) => some (.Quit, rest)
  | some (2, rest) =>
    match decodeString rest with
    | none => none
    | some (text, rest1) => some (.Query text, rest1)
  | some _ => none

/-- Modelled from the spec: the login credentials message of
src/server/src/net/types.rs, absent from src/. -/
structure Login where
  username : String
  password : String
deriving DecidableEq

/-- Wire encoding of a `Login`: the two string fields in declaration
order, no padding. -/
def serializeLogin (l : Login) : List Nat :=
  serializeString l.username ++ serializeString l.password

/-- Read a `Login` struct from the stream. -/
def decodeLogin (bs : List Nat) : Option (Login × List Nat) :=
  match decodeString bs with
  | none => none
  | some (u, rest) =>
    match decodeString rest with
    | none => none
    | some (p, rest1) => some (⟨u, p⟩, rest1)

/-- Modelled from the spec: the greeting message of
src/server/src/net/types.rs, absent from src/. -/
structure Greeting where
  protocol_version : Nat
  message : String
deriving DecidableEq

/-- Modelled from the spec: the greeting constructor used by
do_handshake. -/
def Greeting.make_greeting (v : Nat) (msg : String) : Greeting :=
  ⟨v, msg⟩

/-- Wire encoding of a `Greeting`: one version byte then the message. -/
def serializeGreeting (g : Greeting) : List Nat :=
  [g.protocol_version % 256] ++ serializeString g.message

/-- Read a `Greeting` struct from the stream. -/
def decodeGreeting (bs : List Nat) : Option (Greeting × List Nat) :=
  match readU8 bs with
  | none => none
  | some (v, rest) =>
    match decodeString rest with
    | none => none
    | some (m, rest1) => some (⟨v, m⟩, rest1)

/-- Modelled from the spec: the client-facing error message of
src/server/src/net/types.rs, absent from src/: a 16-bit code and a text. -/
structure ClientErrMsg where
  code : Nat
  msg : String
deriving DecidableEq

/-- Wire encoding of a `ClientErrMsg`: 2-byte code then the message, as
pinned by test_send_error_packet. -/
def serializeClientErrMsg (e : ClientErrMsg) : List Nat :=
  u16be e.code ++ serializeString e.msg

/-- Read a `ClientErrMsg` struct from the stream. -/
def decodeClientErrMsg (bs : List Nat) : Option (ClientErrMsg × List Nat) :=
  match readU16be bs with
  | none => none
  | some (c, rest) =>
    match decodeString rest with
    | none => none
    | some (m, rest1) => some (⟨c, m⟩, rest1)

/-- Modelled from the spec: a fixed-width SQL value type
(src/server/src/storage/types.rs is absent from src/), as also matched on
in src/src/webclient/main.rs: `Int`, `Bool`, `Char(fixed length)`. -/
inductive SqlType
  | Int
  | Bool
  | Char (len : Nat)
deriving DecidableEq

/-- Modelled from the spec: a column descriptor
(src/server/src/storage/types.rs is absent from src/): name, type,
primary-key flag, nullable flag, free-text description. -/
structure Column where
  name : String
  sql_type : SqlType
  is_primary_key : Bool
  allow_null : Bool
  description : String
deriving DecidableEq

/-- Wire encoding of a `SqlType`: 4-byte variant index, then the fixed
length byte for `Char`. -/
def serializeSqlType : SqlType → List Nat
  | .Int => u32be 0
  | .Bool => u32be 1
  | .Char len => u32be 2 ++ [len % 256]

/-- Read a `SqlType` from the stream. -/
def decodeSqlType (bs : List Nat) : Option (SqlType × List Nat) :=
  match readU32be bs with
  | none => none
  | some (0, rest) => some (.Int, rest)
  | some (1, rest) => some (.Bool, rest)
  | some (2, rest) =>
    match readU8 rest with
    | none => none
    | some (len, rest1) => some (.Char len, rest1)
  | some _ => none

/-- Wire encoding of a `Column`: its fields in declaration order. -/
def serializeColumn (c : Column) : List Nat :=
  serializeString c.name ++ serializeSqlType c.sql_type ++
  serializeBool c.is_primary_key ++ serializeBool c.allow_null ++
  serializeString c.description

/-- Read a `Column` from the stream. -/
def decodeColumn (bs : List Nat) : Option (Column × List Nat) :=
  match decodeString bs with
  | none => none
  | some (n, r1) =>
    match decodeSqlType r1 with
    | none => none
    | some (t, r2) =>
      match decodeBool r2 with
      | none => none
      | some (pk, r3) =>
        match decodeBool r3 with
        | none => none
        | some (an, r4) =>
          match decodeString r4 with
          | none => none
          | some (d, r5) => some (⟨n, t, pk, an, d⟩, r5)

/-- Read a counted sequence of columns from the stream. -/
def decodeColumns : Nat → List Nat → Option (List Column × List Nat)
  | 0, bs => some ([], bs)
  | n + 1, bs =>
    match decodeColumn bs with
    | none => none
    | some (c, rest) =>
      match decodeColumns n rest with
      | none => none
      | some (cs, rest1) => some (c :: cs, rest1)

/-- Modelled from the spec: the result-cursor value `ResultSet` of
src/server/src/storage/data.rs, absent from src/: ordered column
descriptors plus an underlying byte source. -/
structure ResultSet where
  columns : List Column
  data : List Nat
deriving DecidableEq

/-- Wire encoding of a `ResultSet`: 8-byte column count, each column,
then the 8-byte data length and the raw data bytes. -/
def serializeResultSet (r : ResultSet) : List Nat :=
  u64be r.columns.length ++ (r.columns.map serializeColumn).flatten ++
  u64be r.data.length ++ r.data

/-- Read a `ResultSet` from the stream. -/
def decodeResultSet (bs : List Nat) : Option (ResultSet × List Nat) :=
  match readU64be bs with
  | none => none
  | some (n, rest) =>
    match decodeColumns n rest with
    | none => none
    | some (cs, rest1) =>
      match readU64be rest1 with
      | none => none
      | some (len, rest2) =>
        if rest2.length < len then none
        else some (⟨cs, rest2.take len⟩, rest2.drop len)

namespace net

/-- The protocol version sent in the greeting (src/server/src/net/mod.rs
line 30). -/
def PROTOCOL_VERSION : Nat := 1

/-- The welcome message sent in the greeting (src/server/src/net/mod.rs
line 31). -/
def WELCOME_MSG : String := "Welcome to the fabulous uoSQL database."

/-- The server-side network error type (src/server/src/net/mod.rs lines
34-41); payloads of `Io`, `Bincode` and `UnEoq` are dropped as they carry
foreign error values. -/
inductive Error
  | Io
  | UnexpectedPkg
  | UnknownCmd
  | Bincode
  | UnEoq
deriving DecidableEq

/-- The error description strings (src/server/src/net/mod.rs lines
51-61). -/
def Error.description : Error → String
  | .Io => "IO error occured"
  | .UnexpectedPkg => "received unexpected package"
  | .UnknownCmd => "cannot interpret command: unknown"
  | .Bincode => "could not encode/decode package"
  | .UnEoq => "parsing error"

/-- Modelled from the spec: the conversion from the server `Error` to a
`ClientErrMsg` (the From impl lives in the absent
src/server/src/net/types.rs); the code for `UnexpectedPkg` is 2 as pinned
by the spec and by test_send_error_packet, the message is the error's
description. -/
def clientErrMsgOfError (e : Error) : ClientErrMsg :=
  let code : Nat :=
    match e with
    | .Io => 0
    | .Bincode => 1
    | .UnexpectedPkg => 2
    | .UnknownCmd => 3
    | .UnEoq => 4
  ⟨code, e.description⟩

/-- Embedding of read_login (src/server/src/net/mod.rs lines 102-120):
reads the package tag and then, in the code as written, returns
`UnexpectedPkg` on every arm — the `Login` arm's payload deserialization
is commented out. -/
def read_login (stream : List Nat) : Except Error Login :=
  match decodePkgType stream with
  | none => .error .Bincode
  | some (status, _rest) =>
    match status with
    | PkgType.Login => .error .UnexpectedPkg
    | PkgType.Command => .error .UnexpectedPkg
    | _ => .error .UnexpectedPkg

/-- Embedding of read_commands (src/server/src/net/mod.rs lines 123-139):
reads the package tag and then, in the code as written, returns
`UnexpectedPkg` on every arm — the `Command` arm's payload
deserialization is commented out. -/
def read_commands (stream : List Nat) : Except Error Command :=
  match decodePkgType stream with
  | none => .error .Bincode
  | some (status, _rest) =>
    match status with
    | PkgType.Login => .error .UnexpectedPkg
    | PkgType.Command => .error .UnexpectedPkg
    | _ => .error .UnexpectedPkg

/-- Embedding of send_error_package (src/server/src/net/mod.rs lines
142-146): appends the Error tag and the message to the stream. -/
def send_error_package (stream : List Nat) (err : ClientErrMsg) :
    List Nat × Except Error Unit :=
  (stream ++ serializePkgType PkgType.Error ++ serializeClientErrMsg err,
   .ok ())

/-- Embedding of send_info_package (src/server/src/net/mod.rs lines
149-152): appends only the package-type tag to the stream. -/
def send_info_package (stream : List Nat) (pkg : PkgType) :
    List Nat × Except Error Unit :=
  (stream ++ serializePkgType pkg, .ok ())

/-- Embedding of send_response_package (src/server/src/net/mod.rs lines
155-159): appends the Response tag and a `ResultSet` to the stream. -/
def send_response_package (stream : List Nat) (data : ResultSet) :
    List Nat × Except Error Unit :=
  (stream ++ serializePkgType PkgType.Response ++ serializeResultSet data,
   .ok ())

/-- Embedding of do_handshake (src/server/src/net/mod.rs lines 85-98): it
serializes the Greet tag and the greeting into the output, then reads the
login from the input; the pair is (bytes written, result). -/
def do_handshake (input : List Nat) :
    List Nat × Except Error (String × String) :=
  let greet := Greeting.make_greeting PROTOCOL_VERSION WELCOME_MSG
  let out := serializePkgType PkgType.Greet ++ serializeGreeting greet
  match read_login input with
  | .ok sth => (out, .ok (sth.username, sth.password))
  | .error msg => (out, .error msg)

end net

namespace storage

/-- The storage-engine error type (src/server/src/storage/mod.rs lines
36-63); payload-carrying variants (`Io`, `Bin`, ...) are modelled as
nullary since their payloads are foreign error values. -/
inductive Error
  | Io
  | Bin
  | Byteorder
  | Utf8Error
  | Utf8StrError
  | NulError
  | WrongMagicNmbr
  | Engine
  | LoadDataBase
  | RemoveColumn
  | AddColumn
  | InvalidType
  | InterruptedRead
  | OutOfBounds
  | MissingPrimaryKey
  | InvalidColumn
  | NotAPrimaryKey
  | NoImplementation
  | WrongLength
  | NoOperationPossible
  | InvalidState
  | EndOfFile
  | BeginningOfFile
  | PrimaryKeyValueExists
  | FoundNoPrimaryKey
  | PrimaryKeyNotAllowed
deriving DecidableEq

/-- Modelled from the spec: the on-disk byte width of a value of a given
`SqlType` — fixed-width Int, one-byte Bool, fixed-length Char with an
explicit effective-length marker byte (spec sections 3 and 4.2;
src/server/src/storage/types.rs is absent from src/). -/
def sqlTypeSize : SqlType → Nat
  | .Int => 4
  | .Bool => 1
  | .Char len => len + 1

/-- Modelled from the spec: table metadata (src/server/src/storage/meta.rs
is absent from src/): a name and an ordered column list whose order
defines the on-disk field order. -/
structure Table where
  name : String
  columns : List Column
deriving DecidableEq

/-- The index of the primary-key column of a table, if one is marked. -/
def Table.pk_index (t : Table) : Option Nat :=
  t.columns.findIdx? (·.is_primary_key)

/-- The byte offset of column `i` inside a row: the sum of the widths of
the preceding columns. -/
def Table.offset (t : Table) (i : Nat) : Nat :=
  ((t.columns.take i).map (fun c => sqlTypeSize c.sql_type)).sum

/-- The byte width of column `i` of a table (0 if out of range). -/
def Table.colSize (t : Table) (i : Nat) : Nat :=
  match t.columns.get? i with
  | none => 0
  | some c => sqlTypeSize c.sql_type

/-- The encoded bytes of column `i` inside a row byte buffer. -/
def colBytes (t : Table) (i : Nat) (row : List Nat) : List Nat :=
  (row.drop (t.offset i)).take (t.colSize i)

/-- A stored row: a tombstone flag (true means deleted) and the row's
data bytes. -/
structure StoredRow where
  deleted : Bool
  data : List Nat
deriving DecidableEq

/-- Modelled from the spec: the flat-file reference engine
(src/server/src/storage/engine.rs is absent from src/): the owning table
schema plus an append/tombstone heap of rows. -/
structure FlatFile where
  table : Table
  rows : List StoredRow
deriving DecidableEq

/-- Modelled from the spec: insert_row of the flat-file engine
(src/server/src/storage/engine.rs is absent from src/). Per spec section
4.1: before writing, if the table declares a primary key the engine scans
existing live rows and rejects with `PrimaryKeyValueExists` on a
duplicate; it rejects with `MissingPrimaryKey` when no primary key is
configured; on success it appends the row and returns its identifier.
The returned pair is (result, engine state after the call). -/
def FlatFile.insert_row (e : FlatFile) (row_data : List Nat) :
    Except Error Nat × FlatFile :=
  match e.table.pk_index with
  | none => (.error .MissingPrimaryKey, e)
  | some i =>
    let newPk := colBytes e.table i row_data
    if e.rows.any (fun r => !r.deleted && colBytes e.table i r.data == newPk)
    then (.error .PrimaryKeyValueExists, e)
    else (.ok e.rows.length,
          ⟨e.table, e.rows ++ [⟨false, row_data⟩]⟩)

end storage

namespace client

/-- The client-side error type (src/src/lib.rs lines 21-28); the foreign
payloads of `AddrParse`, `Io` and `Bincode` are dropped. -/
inductive Error
  | AddrParse
  | Io
  | UnexpectedPkg
  | Bincode
  | Auth
  | Server (e : ClientErrMsg)
deriving DecidableEq

/-- Modelled from Rust std: whether a decimal octet text is valid for
`Ipv4Addr::from_str` — one to three ASCII digits, no leading zero, value
at most 255. -/
def parseOctet (cs : List Char) : Option Nat :=
  if cs.isEmpty then none
  else if !cs.all Char.isDigit then none
  else if cs.length > 3 then none
  else if cs.head? = some '0' && cs.length > 1 then none
  else
    let v := cs.foldl (fun a c => a * 10 + (c.toNat - 48)) 0
    if v ≤ 255 then some v else none

/-- Split a character list at each dot, keeping empty pieces. -/
def splitDots : List Char → List Char → List (List Char)
  | [], acc => [acc.reverse]
  | c :: rest, acc =>
    if c = '.' then acc.reverse :: splitDots rest []
    else splitDots rest (c :: acc)

/-- Modelled from Rust std: `Ipv4Addr::from_str` — exactly four
dot-separated decimal octets. Any other string (hostname, IPv6 literal,
...) fails to parse. -/
def ipv4FromStr (s : String) : Option (Nat × Nat × Nat × Nat) :=
  match splitDots s.data [] with
  | [a, b, c, d] =>
    match parseOctet a, parseOctet b, parseOctet c, parseOctet d with
    | some x, some y, some z, some w => some (x, y, z, w)
    | _, _, _, _ => none
  | _ => none

/-- Modelled from the spec: the client-side cursor `DataSet` of the absent
src/server/src/net/types.rs, as used by src/src/webclient/main.rs: column
metadata, a row-data byte source and a forward-only position. -/
structure DataSet where
  columns : List Column
  data : List Nat
  pos : Nat
deriving DecidableEq

/-- Modelled from the spec: preprocess of the absent
src/server/src/net/types.rs — builds the client cursor from a received
`ResultSet`, starting at position 0. -/
def preprocess (r : ResultSet) : DataSet :=
  ⟨r.columns, r.data, 0⟩

/-- The client connection value (src/src/lib.rs lines 81-87) without the
TcpStream handle, which is modelled as the explicit streams passed
around. -/
structure Connection where
  ip : String
  port : Nat
  greeting : Greeting
  user_data : Login
deriving DecidableEq

/-- Embedding of send_cmd (src/src/lib.rs lines 220-224): the bytes
written to the stream for a command. -/
def send_cmd (cmd : Command) : List Nat :=
  serializePkgType PkgType.Command ++ serializeCommand cmd

/-- Embedding of receive (src/src/lib.rs lines 227-249): reads a package
tag; an Error tag yields the decoded server error, a mismatched tag
yields `UnexpectedPkg` after draining that tag's payload, a matching tag
yields success. Returns the result together with the unconsumed rest of
the stream. -/
def receive (s : List Nat) (cmd : PkgType) :
    Except Error Unit × List Nat :=
  match decodePkgType s with
  | none => (.error .Bincode, s)
  | some (status, rest) =>
    if status = PkgType.Error then
      match decodeClientErrMsg rest with
      | none => (.error .Bincode, rest)
      | some (err, rest1) => (.error (.Server err), rest1)
    else if status ≠ cmd then
      match status with
      | PkgType.Ok => (.error .UnexpectedPkg, rest)
      | PkgType.Response =>
        match decodeResultSet rest with
        | none => (.error .Bincode, rest)
        | some (_, rest1) => (.error .UnexpectedPkg, rest1)
      | PkgType.Greet =>
        match decodeGreeting rest with
        | none => (.error .Bincode, rest)
        | some (_, rest1) => (.error .UnexpectedPkg, rest1)
      | _ => (.error .UnexpectedPkg, rest)
    else (.ok (), rest)

/-- Embedding of Connection::execute (src/src/lib.rs lines 172-185): the
first component is what is sent, the second the result together with the
unconsumed reply stream. -/
def execute (query : String) (reply : List Nat) :
    List Nat × (Except Error DataSet × List Nat) :=
  let sent := send_cmd (Command.Query query)
  match receive reply PkgType.Response with
  | (.ok _, rest) =>
    match decodeResultSet rest with
    | none => (sent, (.error .Bincode, rest))
    | some (rows, rest1) => (sent, (.ok (preprocess rows), rest1))
  | (.error e, rest) => (sent, (.error e, rest))

/-- Embedding of Connection::connect (src/src/lib.rs lines 91-145): parse
the IPv4 address, read the greeting, send the login, then dispatch on the
status tag. The first component is what is sent over the wire ([] when
the address fails to parse, since no connection is attempted). -/
def connect (addr : String) (port : Nat) (usern passwd : String)
    (stream : List Nat) : List Nat × Except Error Connection :=
  match ipv4FromStr addr with
  | none => ([], .error .AddrParse)
  | some _ =>
    match receive stream PkgType.Greet with
    | (.error e, _) => ([], .error e)
    | (.ok _, rest) =>
      match decodeGreeting rest with
      | none => ([], .error .Bincode)
      | some (greet, rest1) =>
        let log : Login := ⟨usern, passwd⟩
        let sent := serializePkgType PkgType.Login ++ serializeLogin log
        match decodePkgType rest1 with
        | none => (sent, .error .Bincode)
        | some (status, _) =>
          match status with
          | PkgType.AccGranted =>
            (sent, .ok ⟨addr, port, greet, log⟩)
          | PkgType.AccDenied => (sent, .error .Auth)
          | _ => (sent, .error .UnexpectedPkg)

end client

/-! Helper lemmas shared by the claim theorems. -/

/-- Decoding a serialized package tag from the front of any stream yields
that tag and leaves the rest untouched. -/
theorem decodePkgType_serialize (p : PkgType) (s : List Nat) :
    decodePkgType (serializePkgType p ++ s) = some (p, s) := by
  cases p <;> rfl

/-! Claim theorems. -/

/-- C1: the claimed encode/decode round-trip for
`Login{username:"elena", password:"prakt"}` does not hold on the code as
written: read_login returns `UnexpectedPkg` even on a well-formed Login
package, because the payload deserialization in its Login arm is
commented out (src/server/src/net/mod.rs line 110), contradicting the
repository's own test testlogin. This theorem evaluates the embedded
read_login at exactly the byte stream the test builds. -/
theorem read_login_roundtrip_returns_unexpected_pkg :
    net.read_login (serializePkgType PkgType.Login ++
        serializeLogin (Login.mk "elena" "prakt")) =
      Except.error net.Error.UnexpectedPkg := rfl

/-- C2: the claimed decode of a serialized `Command::Query("select")` does
not hold on the code as written: read_commands returns `UnexpectedPkg`
even on a well-formed Command package, because the payload
deserialization in its Command arm is commented out
(src/server/src/net/mod.rs line 134), contradicting the repository's own
test test_read_commands. This theorem evaluates the embedded
read_commands at exactly the byte stream the test builds. -/
theorem read_commands_roundtrip_returns_unexpected_pkg :
    net.read_commands (serializePkgType PkgType.Command ++
        serializeCommand (Command.Query "select")) =
      Except.error net.Error.UnexpectedPkg := rfl

/-- C3: send_info_package on an empty buffer with `PkgType::Ok` succeeds
and writes exactly the four bytes [0,0,0,4] — the 4-byte tag with no
outer length-prefix frame before it. -/
theorem send_info_package_ok_exact_bytes :
    net.send_info_package [] PkgType.Ok = ([0, 0, 0, 4], Except.ok ()) := rfl

/-- C4: send_error_package on an empty buffer with the `ClientErrMsg`
derived from `Error::UnexpectedPkg` succeeds and writes exactly the Error
tag [0,0,0,3], the u16 code [0,2], the 8-byte length 27 and the 27 UTF-8
bytes of "received unexpected package". -/
theorem send_error_package_unexpected_pkg_exact_bytes :
    net.send_error_package [] (net.clientErrMsgOfError net.Error.UnexpectedPkg) =
      ([0, 0, 0, 3,
        0, 2,
        0, 0, 0, 0, 0, 0, 0, 27,
        114, 101, 99, 101, 105, 118, 101, 100, 32, 117, 110, 101, 120, 112,
        101, 99, 116, 101, 100, 32, 112, 97, 99, 107, 97, 103, 101],
       Except.ok ()) := rfl

/-- C5 counterexample: the wire encoding of an enum variant is not the
variant index in little-endian byte order: `PkgType::Ok` (index 4)
encodes to [0,0,0,4], not to the little-endian [4,0,0,0]. -/
theorem pkgtype_ok_not_little_endian :
    serializePkgType PkgType.Ok = [0, 0, 0, 4] ∧
    serializePkgType PkgType.Ok ≠ u32le (pkgTypeIndex PkgType.Ok) := by
  constructor
  · rfl
  · decide

/-- C5 amended: for every protocol enum variant the wire encoding is the
variant's declaration index written as a 4-byte unsigned integer in
big-endian (network) byte order, followed immediately by that variant's
fields in declaration order; the decoder's explicit index-to-variant
table inverts the tag encoding. -/
theorem wire_enum_encoding_big_endian :
    (∀ p : PkgType,
        serializePkgType p = [0, 0, 0, pkgTypeIndex p] ∧
        decodePkgType (serializePkgType p) = some (p, [])) ∧
    (∀ c : Command,
        serializeCommand c = [0, 0, 0, commandIndex c] ++ commandFields c) := by
  constructor
  · intro p
    cases p <;> exact ⟨rfl, rfl⟩
  · intro c
    cases c <;> simp [serializeCommand, commandIndex, commandFields, u32be]

/-- C6: on every invocation, whatever the input stream holds and whatever
the subsequent login read returns, do_handshake writes exactly the Greet
tag followed by the greeting built from PROTOCOL_VERSION and the welcome
text, whose protocol_version is 1 and whose message is the welcome
text. -/
theorem do_handshake_writes_greeting_first (input : List Nat) :
    (net.do_handshake input).1 =
      serializePkgType PkgType.Greet ++
        serializeGreeting
          (Greeting.make_greeting net.PROTOCOL_VERSION net.WELCOME_MSG) ∧
    net.PROTOCOL_VERSION = 1 ∧
    (Greeting.make_greeting net.PROTOCOL_VERSION net.WELCOME_MSG).message =
      "Welcome to the fabulous uoSQL database." := by
  refine ⟨?_, rfl, rfl⟩
  unfold net.do_handshake
  cases net.read_login input <;> rfl

/-- C6 witness: the greeting bytes written on an empty input stream,
where the login read necessarily fails. -/
theorem do_handshake_writes_greeting_first_witness :
    (net.do_handshake []).1 =
      serializePkgType PkgType.Greet ++
        serializeGreeting
          (Greeting.make_greeting net.PROTOCOL_VERSION net.WELCOME_MSG) ∧
    net.PROTOCOL_VERSION = 1 ∧
    (Greeting.make_greeting net.PROTOCOL_VERSION net.WELCOME_MSG).message =
      "Welcome to the fabulous uoSQL database." :=
  do_handshake_writes_greeting_first []

/-- C7: Connection::execute sends the Command tag followed by
`Command::Query(query)`; when the reply tag is Response it returns the
decoded ResultSet turned into a DataSet, when the reply tag is Error it
returns `Error::Server` carrying the decoded ClientErrMsg payload, and
every other reply tag (Ok, Login, Command, AccGranted, AccDenied, and
Greet with its payload) yields `Error::UnexpectedPkg`. -/
theorem connection_execute_dispatch :
    (∀ q : String, ∀ s : List Nat,
      (client.execute q s).1 =
        serializePkgType PkgType.Command ++ serializeCommand (Command.Query q)) ∧
    (∀ q : String, ∀ s rest : List Nat, ∀ rs : ResultSet,
      decodeResultSet s = some (rs, rest) →
      (client.execute q (serializePkgType PkgType.Response ++ s)).2.1 =
        Except.ok (client.preprocess rs)) ∧
    (∀ q : String, ∀ s rest : List Nat, ∀ e : ClientErrMsg,
      decodeClientErrMsg s = some (e, rest) →
      (client.execute q (serializePkgType PkgType.Error ++ s)).2.1 =
        Except.error (client.Error.Server e)) ∧
    (∀ q : String, ∀ s : List Nat, ∀ t : PkgType,
      t = PkgType.Ok ∨ t = PkgType.Login ∨ t = PkgType.Command ∨
        t = PkgType.AccGranted ∨ t = PkgType.AccDenied →
      (client.execute q (serializePkgType t ++ s)).2.1 =
        Except.error client.Error.UnexpectedPkg) ∧
    (∀ q : String, ∀ s rest : List Nat, ∀ g : Greeting,
      decodeGreeting s = some (g, rest) →
      (client.execute q (serializePkgType PkgType.Greet ++ s)).2.1 =
        Except.error client.Error.UnexpectedPkg) := by
  refine ⟨?_, ?_, ?_, ?_, ?_⟩
  · intro q s
    simp only [client.execute]
    rcases h : client.receive s PkgType.Response with ⟨r, rest⟩
    cases r with
    | error e => rfl
    | ok u =>
      rcases h2 : decodeResultSet rest with _ | ⟨rs, rest1⟩ <;>
        simp only [h2] <;> rfl
  · intro q s rest rs hd
    simp only [client.execute, client.receive, decodePkgType_serialize]
    simp [hd]
  · intro q s rest e hd
    simp only [client.execute, client.receive, decodePkgType_serialize]
    simp [hd]
  · intro q s t ht
    rcases ht with rfl | rfl | rfl | rfl | rfl <;> rfl
  · intro q s rest g hd
    simp only [client.execute, client.receive, decodePkgType_serialize]
    simp [hd]

/-- C7 witness: concrete instances of the dispatch theorem — an Error
reply carrying code 2 maps to a server error, a Response reply carrying
an empty ResultSet maps to the derived DataSet, an Ok reply and a Greet
reply map to UnexpectedPkg. -/
theorem connection_execute_dispatch_witness :
    (client.execute "select" (serializePkgType PkgType.Error ++
        serializeClientErrMsg ⟨2, "received unexpected package"⟩)).2.1 =
      Except.error (client.Error.Server ⟨2, "received unexpected package"⟩) ∧
    (client.execute "select" (serializePkgType PkgType.Response ++
        serializeResultSet ⟨[], []⟩)).2.1 =
      Except.ok (client.preprocess ⟨[], []⟩) ∧
    (client.execute "select" (serializePkgType PkgType.Ok ++ [])).2.1 =
      Except.error client.Error.UnexpectedPkg ∧
    (client.execute "select" (serializePkgType PkgType.Greet ++
        serializeGreeting ⟨1, "hi"⟩)).2.1 =
      Except.error client.Error.UnexpectedPkg := by
  refine ⟨?_, ?_, ?_, ?_⟩
  · exact connection_execute_dispatch.2.2.1 "select" _ []
      ⟨2, "received unexpected package"⟩ (by decide)
  · exact connection_execute_dispatch.2.1 "select" _ [] ⟨[], []⟩ (by decide)
  · exact connection_execute_dispatch.2.2.2.1 "select" [] PkgType.Ok
      (Or.inl rfl)
  · exact connection_execute_dispatch.2.2.2.2 "select" _ [] ⟨1, "hi"⟩
      (by decide)

/-- C8: during Connection::connect, after the greeting is read and the
Login tag and credentials are sent, the status tag dispatch is: AccGranted
yields Ok with a Connection holding the given address, port, greeting and
login data; AccDenied yields the Auth error; every other tag yields
UnexpectedPkg. -/
theorem connect_status_dispatch (addr : String) (a : Nat × Nat × Nat × Nat)
    (port : Nat) (usern passwd : String) (s s2 s3 : List Nat)
    (g : Greeting) (t : PkgType)
    (hip : client.ipv4FromStr addr = some a)
    (hg : decodeGreeting s = some (g, s2))
    (ht : decodePkgType s2 = some (t, s3)) :
    (t = PkgType.AccGranted →
      client.connect addr port usern passwd
          (serializePkgType PkgType.Greet ++ s) =
        (serializePkgType PkgType.Login ++ serializeLogin ⟨usern, passwd⟩,
         Except.ok ⟨addr, port, g, ⟨usern, passwd⟩⟩)) ∧
    (t = PkgType.AccDenied →
      client.connect addr port usern passwd
          (serializePkgType PkgType.Greet ++ s) =
        (serializePkgType PkgType.Login ++ serializeLogin ⟨usern, passwd⟩,
         Except.error client.Error.Auth)) ∧
    (t ≠ PkgType.AccGranted → t ≠ PkgType.AccDenied →
      client.connect addr port usern passwd
          (serializePkgType PkgType.Greet ++ s) =
        (serializePkgType PkgType.Login ++ serializeLogin ⟨usern, passwd⟩,
         Except.error client.Error.UnexpectedPkg)) := by
  have hrecv : client.receive (serializePkgType PkgType.Greet ++ s)
      PkgType.Greet = (Except.ok (), s) := by
    simp only [client.receive, decodePkgType_serialize]
    rfl
  refine ⟨?_, ?_, ?_⟩
  · rintro rfl
    simp only [client.connect, hip, hrecv, hg, ht]
  · rintro rfl
    simp only [client.connect, hip, hrecv, hg, ht]
  · intro h1 h2
    simp only [client.connect, hip, hrecv, hg, ht]

/-- C8 witness: a concrete run for address "127.0.0.1" with a greeting
and an AccDenied status tag yields the Auth error, and the same run with
an AccGranted tag yields the connection value. -/
theorem connect_status_dispatch_witness :
    client.connect "127.0.0.1" 4242 "elena" "prakt"
        (serializePkgType PkgType.Greet ++ serializeGreeting ⟨1, "hi"⟩ ++
         serializePkgType PkgType.AccDenied) =
      (serializePkgType PkgType.Login ++ serializeLogin ⟨"elena", "prakt"⟩,
       Except.error client.Error.Auth) ∧
    client.connect "127.0.0.1" 4242 "elena" "prakt"
        (serializePkgType PkgType.Greet ++ serializeGreeting ⟨1, "hi"⟩ ++
         serializePkgType PkgType.AccGranted) =
      (serializePkgType PkgType.Login ++ serializeLogin ⟨"elena", "prakt"⟩,
       Except.ok ⟨"127.0.0.1", 4242, ⟨1, "hi"⟩, ⟨"elena", "prakt"⟩⟩) := by
  constructor
  · have h := connect_status_dispatch "127.0.0.1" (127, 0, 0, 1) 4242
      "elena" "prakt" (serializeGreeting ⟨1, "hi"⟩ ++
        serializePkgType PkgType.AccDenied) (serializePkgType PkgType.AccDenied)
      [] ⟨1, "hi"⟩ PkgType.AccDenied (by decide) (by decide) (by decide)
    simpa [List.append_assoc] using h.2.1 rfl
  · have h := connect_status_dispatch "127.0.0.1" (127, 0, 0, 1) 4242
      "elena" "prakt" (serializeGreeting ⟨1, "hi"⟩ ++
        serializePkgType PkgType.AccGranted) (serializePkgType PkgType.AccGranted)
      [] ⟨1, "hi"⟩ PkgType.AccGranted (by decide) (by decide) (by decide)
    simpa [List.append_assoc] using h.1 rfl

/-- C9: for every flat-file engine state whose table declares a primary
key, inserting a row whose primary-key bytes already occur in a live
(non-tombstoned) stored row fails with `PrimaryKeyValueExists` and leaves
the engine state — in particular the stored rows and their count —
unchanged. -/
theorem insert_row_duplicate_pk_rejected (e : storage.FlatFile)
    (row : List Nat) (i : Nat) (r : storage.StoredRow)
    (hpk : e.table.pk_index = some i)
    (hr : r ∈ e.rows) (hlive : r.deleted = false)
    (hdup : storage.colBytes e.table i r.data =
      storage.colBytes e.table i row) :
    (e.insert_row row).1 = Except.error storage.Error.PrimaryKeyValueExists ∧
    (e.insert_row row).2 = e := by
  have hany : e.rows.any (fun x => !x.deleted &&
      storage.colBytes e.table i x.data == storage.colBytes e.table i row) = true := by
    refine List.any_eq_true.mpr ⟨r, hr, ?_⟩
    simp [hlive, hdup]
  constructor <;>
    simp [storage.FlatFile.insert_row, hpk, hany]

/-- C9 witness: a one-column table with an Int primary key holding the
single live row [0,0,0,5]; re-inserting [0,0,0,5] is rejected with
`PrimaryKeyValueExists` and the engine state is unchanged. -/
theorem insert_row_duplicate_pk_rejected_witness :
    (storage.FlatFile.insert_row
        ⟨⟨"t", [⟨"id", SqlType.Int, true, false, ""⟩]⟩,
         [⟨false, [0, 0, 0, 5]⟩]⟩ [0, 0, 0, 5]).1 =
      Except.error storage.Error.PrimaryKeyValueExists ∧
    (storage.FlatFile.insert_row
        ⟨⟨"t", [⟨"id", SqlType.Int, true, false, ""⟩]⟩,
         [⟨false, [0, 0, 0, 5]⟩]⟩ [0, 0, 0, 5]).2 =
      ⟨⟨"t", [⟨"id", SqlType.Int, true, false, ""⟩]⟩,
       [⟨false, [0, 0, 0, 5]⟩]⟩ :=
  insert_row_duplicate_pk_rejected
    ⟨⟨"t", [⟨"id", SqlType.Int, true, false, ""⟩]⟩, [⟨false, [0, 0, 0, 5]⟩]⟩
    [0, 0, 0, 5] 0 ⟨false, [0, 0, 0, 5]⟩ (by decide) (by decide) rfl rfl

/-- C10: Connection::connect requires a numeric IPv4 literal: whenever the
address string does not parse as an Ipv4Addr, connect returns the
AddrParse error with nothing sent over the wire, for every port,
credential pair and server stream. -/
theorem connect_rejects_unparsable_addr (addr : String) (port : Nat)
    (usern passwd : String) (stream : List Nat)
    (h : client.ipv4FromStr addr = none) :
    client.connect addr port usern passwd stream =
      ([], Except.error client.Error.AddrParse) := by
  simp [client.connect, h]

/-- C10 witness: the hostname "localhost" does not parse as an IPv4
address, so connect rejects it with AddrParse before any I/O. -/
theorem connect_rejects_unparsable_addr_witness :
    client.connect "localhost" 4242 "elena" "prakt" [] =
      ([], Except.error client.Error.AddrParse) :=
  connect_rejects_unparsable_addr "localhost" 4242 "elena" "prakt" []
    (by decide)

end uosql
